import Mathlib

/-
  Shallow embedding of the row-to-payload pipeline of
  redbuttegarden/parse_post_brahms_sql (src/parse.py, src/main.py).

  Python exceptions are modelled with `Except PyExc`; a value
  `Except.ok none` of the row transformer models the Python transformer
  returning None (row dropped), while `Except.error e` models an
  exception escaping the function.  Logging calls have no observable
  effect on the data flow and are not modelled.
-/

namespace Brahms

/-- The Python exception classes that the embedded code can raise. -/
inductive PyExc where
  | valueError
  | keyError
  | stopIteration
  | indexError
  deriving DecidableEq, Repr

/-- Whitespace characters stripped by the Python str.strip() method
with no argument (the ASCII subset, which covers the data format). -/
def pyWhitespace : List Char := [' ', '\t', '\n', '\r', '\x0B', '\x0C']

/-- Strip characters satisfying p from both ends of a string, as the
Python str.strip family does. -/
def stripChars (p : Char → Bool) (s : String) : String :=
  String.mk (((s.toList.dropWhile p).reverse.dropWhile p).reverse)

/-- Python str.strip() with no argument: strip whitespace from both ends. -/
def pyStrip (s : String) : String :=
  stripChars (fun c => c ∈ pyWhitespace) s

/-- Python str.strip(",") as used by clean_row: strip commas from both ends. -/
def stripComma (s : String) : String :=
  stripChars (fun c => c = ',') s

/-- Single-character Python str.split(sep): adjacent separators produce
empty tokens and the empty string yields one empty token.  Defined by
structural recursion so that concrete instances reduce in the kernel. -/
def pySplitAux (sep : Char) : List Char → List Char → List String
  | [], acc => [String.mk acc.reverse]
  | c :: cs, acc =>
    if c = sep then String.mk acc.reverse :: pySplitAux sep cs []
    else pySplitAux sep cs (c :: acc)

/-- Python str.split(sep) for a single-character separator. -/
def pySplit (sep : Char) (s : String) : List String :=
  pySplitAux sep s.toList []

/-- Python str.replace on character lists: replace non-overlapping
occurrences of pat left to right; the fuel argument (at least the
length of the text) makes the recursion structural. -/
def pyReplaceAux (pat sub : List Char) : Nat → List Char → List Char
  | _, [] => []
  | 0, cs => cs
  | Nat.succ fuel, c :: cs =>
    if List.isPrefixOf pat (c :: cs) then
      sub ++ pyReplaceAux pat sub fuel (List.drop (pat.length - 1) cs)
    else c :: pyReplaceAux pat sub fuel cs

/-- Python str.replace(pat, sub) for a nonempty pattern. -/
def pyReplace (s pat sub : String) : String :=
  String.mk (pyReplaceAux pat.toList sub.toList (s.toList.length + 1) s.toList)

/-- Whether p is a prefix of s, on the character lists. -/
def strStartsWith (s p : String) : Bool :=
  List.isPrefixOf p.toList s.toList

/-- Whether p is a suffix of s, on the character lists. -/
def strEndsWith (s p : String) : Bool :=
  List.isPrefixOf p.toList.reverse s.toList.reverse

/-- Tail of a digit run in a Python integer literal: digits with single
underscores allowed strictly between digits. -/
def udRest : List Char → Bool
  | [] => true
  | ['_'] => false
  | '_' :: c :: cs => c.isDigit && udRest cs
  | c :: cs => c.isDigit && udRest cs

/-- A nonempty digit run with single underscores allowed between digits,
as accepted by the Python int and float literal grammar. -/
def udRun : List Char → Bool
  | [] => false
  | c :: cs => c.isDigit && udRest cs

/-- Numeric value of a digit run, ignoring underscores. -/
def udVal (cs : List Char) : Nat :=
  cs.foldl (fun a c => if c = '_' then a else a * 10 + (c.toNat - 48)) 0

/-- Python int(s) on a string argument: strip whitespace, optional sign,
then a digit run; returns none where CPython raises ValueError. -/
def pyInt (s : String) : Option Int :=
  match (pyStrip s).toList with
  | '+' :: rest => if udRun rest then some (Int.ofNat (udVal rest)) else none
  | '-' :: rest => if udRun rest then some (-(Int.ofNat (udVal rest))) else none
  | cs => if udRun cs then some (Int.ofNat (udVal cs)) else none

/-- Lower-case every character of a string (ASCII, as in the data). -/
def lowerStr (s : String) : String :=
  String.mk (s.toList.map Char.toLower)

/-- Mantissa of a Python float literal: digits with an optional decimal
point, at least one digit overall. -/
def mantissaValid (s : String) : Bool :=
  match pySplit '.' s with
  | [a] => udRun a.toList
  | [a, b] =>
    if a = "" then udRun b.toList
    else udRun a.toList && (b = "" || udRun b.toList)
  | _ => false

/-- Exponent of a Python float literal: optional sign then digits. -/
def expValid (s : String) : Bool :=
  match s.toList with
  | '+' :: cs => udRun cs
  | '-' :: cs => udRun cs
  | cs => udRun cs

/-- Whether Python float(s) accepts the string s (ValueError otherwise):
strip whitespace, optional sign, then inf, infinity, nan
(case-insensitive) or mantissa with optional exponent. -/
def pyFloatValid (s : String) : Bool :=
  let t := pyStrip s
  let t1 := match t.toList with
    | '+' :: cs => String.mk cs
    | '-' :: cs => String.mk cs
    | _ => t
  let l := lowerStr t1
  if l = "inf" || l = "infinity" || l = "nan" then true
  else
    match pySplit 'e' l with
    | [m] => mantissaValid m
    | [m, e] => mantissaValid m && expValid e
    | _ => false

/-- Python str.title() over a character list; the flag records whether
the previous character was alphabetic. -/
def pyTitleAux : Bool → List Char → List Char
  | _, [] => []
  | prev, c :: cs =>
    if c.isAlpha then
      (if prev then c.toLower else c.toUpper) :: pyTitleAux true cs
    else
      c :: pyTitleAux false cs

/-- Python str.title(): first letter of each word upper-cased, the rest
lower-cased. -/
def pyTitle (s : String) : String :=
  String.mk (pyTitleAux false s.toList)

/-- The list comprehension of process_bloom_time: iterate the list of
title-cased tokens through a single shared iterator; a token equal to
Early, Mid or Late consumes the following token with next(month_iter),
which raises StopIteration when the iterator is exhausted. -/
def bloomMerge : List String → Except PyExc (List String)
  | [] => .ok []
  | i :: rest =>
    if i = "Early" ∨ i = "Mid" ∨ i = "Late" then
      match rest with
      | [] => .error .stopIteration
      | j :: rest2 =>
        match bloomMerge rest2 with
        | .error e => .error e
        | .ok l => .ok ((i ++ " " ++ j) :: l)
    else
      match bloomMerge rest with
      | .error e => .error e
      | .ok l => .ok (i :: l)

/-- Embedding of parse.process_bloom_time: split on single spaces,
title-case each token, then merge marker tokens with their successors. -/
def process_bloom_time (bloom_time_string : String) : Except PyExc (List String) :=
  bloomMerge ((pySplit ' ' bloom_time_string).map pyTitle)

/-- Embedding of parse.process_plant_date.  The plant_id argument of the
source only feeds a log line and is omitted.  The conjunction in the
source is short-circuiting: int(month) is evaluated only when int(day)
is in range, so a malformed month after an out-of-range day does not
raise.  Except.ok none models the Python function returning None after
logging a warning; Except.error models the re-raised ValueError. -/
def process_plant_date (day month year : String) : Except PyExc (Option String) :=
  match pyInt day with
  | none => .error .valueError
  | some d =>
    if 1 ≤ d ∧ d < 32 then
      match pyInt month with
      | none => .error .valueError
      | some m =>
        if 1 ≤ m ∧ m < 13 then
          if year.length = 4 then
            .ok (some (year ++ "-" ++ month ++ "-" ++ day))
          else .ok none
        else .ok none
    else .ok none

/-- Embedding of parse.clean_row: strip commas from both ends of every
field; a fresh list is built, the argument is not modified. -/
def clean_row (row : List String) : List String :=
  row.map stripComma

/-- Loop body of process_hardiness: int(elem.strip()) on every token,
appending to the accumulator; the first ValueError aborts the loop. -/
def hardinessLoop : List String → Except PyExc (List Int)
  | [] => .ok []
  | e :: rest =>
    match pyInt (pyStrip e) with
    | none => .error .valueError
    | some n =>
      match hardinessLoop rest with
      | .error ex => .error ex
      | .ok l => .ok (n :: l)

/-- Embedding of parse.process_hardiness: split on commas, strip each
token, parse each as an integer; raises ValueError on the first token
that is not an integer.  Note that the empty string splits to one empty
token, which raises. -/
def process_hardiness (hardiness_data : String) : Except PyExc (List Int) :=
  hardinessLoop (pySplit ',' hardiness_data)

/-- The field-name to raw-value mapping built by parse.get_column_mapping
from the fixed 38-column plant-collection schema. -/
structure ColumnMapping where
  familyname : String
  vernacularfamilyname : String
  genusname : String
  speciesname : String
  calcfullname : String
  subspecies : String
  variety : String
  subvariety : String
  forma : String
  subforma : String
  cultivar : String
  vernacularname : String
  habit : String
  hardiness : String
  waterregime : String
  exposure : String
  plantsize : String
  colour : String
  gardenlocalityarea : String
  gardenlocalityname : String
  gardenlocalitycode : String
  plantid : String
  latitude : String
  longitude : String
  commemorationcategory : String
  commemorationperson : String
  plantday : String
  plantmonth : String
  plantyear : String
  notonline : String
  lastmodified : String
  bloomtime : String
  utahnative : String
  plantselect : String
  deer : String
  rabbit : String
  bee : String
  highelevation : String
  deriving DecidableEq, Repr

/-- Embedding of parse.get_column_mapping: positional indexing row[0]
through row[37]; a row with fewer than 38 fields raises IndexError. -/
def get_column_mapping (row : List String) : Except PyExc ColumnMapping :=
  if 38 ≤ row.length then
    .ok {
      familyname := row.getD 0 ""
      vernacularfamilyname := row.getD 1 ""
      genusname := row.getD 2 ""
      speciesname := row.getD 3 ""
      calcfullname := row.getD 4 ""
      subspecies := row.getD 5 ""
      variety := row.getD 6 ""
      subvariety := row.getD 7 ""
      forma := row.getD 8 ""
      subforma := row.getD 9 ""
      cultivar := row.getD 10 ""
      vernacularname := row.getD 11 ""
      habit := row.getD 12 ""
      hardiness := row.getD 13 ""
      waterregime := row.getD 14 ""
      exposure := row.getD 15 ""
      plantsize := row.getD 16 ""
      colour := row.getD 17 ""
      gardenlocalityarea := row.getD 18 ""
      gardenlocalityname := row.getD 19 ""
      gardenlocalitycode := row.getD 20 ""
      plantid := row.getD 21 ""
      latitude := row.getD 22 ""
      longitude := row.getD 23 ""
      commemorationcategory := row.getD 24 ""
      commemorationperson := row.getD 25 ""
      plantday := row.getD 26 ""
      plantmonth := row.getD 27 ""
      plantyear := row.getD 28 ""
      notonline := row.getD 29 ""
      lastmodified := row.getD 30 ""
      bloomtime := row.getD 31 ""
      utahnative := row.getD 32 ""
      plantselect := row.getD 33 ""
      deer := row.getD 34 ""
      rabbit := row.getD 35 ""
      bee := row.getD 36 ""
      highelevation := row.getD 37 "" }
  else .error .indexError

/-- The family sub-record of the payload. -/
structure FamilyRec where
  name : String
  vernacular_name : String
  deriving DecidableEq, Repr

/-- The genus sub-record of the payload. -/
structure GenusRec where
  family : FamilyRec
  name : String
  deriving DecidableEq, Repr

/-- The species sub-record of the payload. -/
structure SpeciesRec where
  genus : GenusRec
  name : String
  full_name : String
  subspecies : String
  variety : String
  subvariety : String
  forma : String
  subforma : String
  cultivar : String
  vernacular_name : String
  habit : String
  hardiness : List Int
  water_regime : String
  exposure : String
  bloom_time : List String
  plant_size : String
  flower_color : String
  utah_native : Bool
  plant_select : Bool
  deer_resist : Bool
  rabbit_resist : Bool
  bee_friend : Bool
  high_elevation : Bool
  deriving DecidableEq, Repr

/-- The garden sub-record of the payload. -/
structure GardenRec where
  area : String
  name : String
  code : String
  deriving DecidableEq, Repr

/-- The location sub-record of the payload.  The source stores
round(float(s), 6); since no claim depends on the numeric value, the
parsed coordinate is represented by its accepted source text, and
parse failure is what the embedding tracks exactly. -/
structure LocationRec where
  latitude : Option String
  longitude : Option String
  deriving DecidableEq, Repr

/-- The full plant-collection payload built by brahms_row_to_payload. -/
structure Payload where
  species : SpeciesRec
  garden : GardenRec
  location : LocationRec
  plant_date : Option String
  plant_id : String
  commemoration_category : String
  commemoration_person : String
  deriving DecidableEq, Repr

/-- Coordinate expression of the payload dict:
round(float(s), 6) if len(s) > 0 else None.  An unparseable nonempty
string raises ValueError, and this expression is not inside any
try block of the source. -/
def parse_coord (s : String) : Except PyExc (Option String) :=
  if 0 < s.length then
    if pyFloatValid s then .ok (some s) else .error .valueError
  else .ok none

/-- Hardiness step of brahms_row_to_payload: the coercer runs only on a
truthy (nonempty) raw value, and its ValueError is caught, making the
transformer return None (modelled ok none). -/
def step_hardiness (cm : ColumnMapping) : Except PyExc (Option (List Int)) :=
  if cm.hardiness ≠ "" then
    match process_hardiness cm.hardiness with
    | .ok l => .ok (some l)
    | .error .valueError => .ok none
    | .error e => .error e
  else .ok (some [])

/-- Bloom step of brahms_row_to_payload: the coercer runs only on a
truthy raw value; the handler catches KeyError ONLY, so a
StopIteration from process_bloom_time propagates. -/
def step_bloom (cm : ColumnMapping) : Except PyExc (Option (List String)) :=
  if cm.bloomtime ≠ "" then
    match process_bloom_time cm.bloomtime with
    | .ok l => .ok (some l)
    | .error .keyError => .ok none
    | .error e => .error e
  else .ok (some [])

/-- Date step of brahms_row_to_payload: process_plant_date runs only
when day, month and year are all truthy; its ValueError is caught,
making the transformer return None. -/
def step_date (cm : ColumnMapping) : Except PyExc (Option (Option String)) :=
  if cm.plantday ≠ "" ∧ cm.plantmonth ≠ "" ∧ cm.plantyear ≠ "" then
    match process_plant_date cm.plantday cm.plantmonth cm.plantyear with
    | .ok d => .ok (some d)
    | .error .valueError => .ok none
    | .error e => .error e
  else .ok (some none)

/-- True boolean-flag expression of the payload dict:
s.lower() in allow-list. -/
def boolFlag (allow : List String) (s : String) : Bool :=
  lowerStr s ∈ allow

/-- Embedding of parse.brahms_row_to_payload.  Except.ok (some p) is a
returned payload, Except.ok none is the Python function returning None
after a caught row-level failure, Except.error e is an exception
escaping the function. -/
def brahms_row_to_payload (row : List String) : Except PyExc (Option Payload) :=
  let row := clean_row row
  match get_column_mapping row with
  | .error e => .error e
  | .ok cm =>
    match step_hardiness cm with
    | .error e => .error e
    | .ok none => .ok none
    | .ok (some hardiness) =>
      match step_bloom cm with
      | .error e => .error e
      | .ok none => .ok none
      | .ok (some bloom_times) =>
        match step_date cm with
        | .error e => .error e
        | .ok none => .ok none
        | .ok (some plant_date) =>
          match parse_coord cm.latitude with
          | .error e => .error e
          | .ok lat =>
            match parse_coord cm.longitude with
            | .error e => .error e
            | .ok lon =>
              .ok (some {
                species := {
                  genus := {
                    family := {
                      name := cm.familyname
                      vernacular_name := cm.vernacularfamilyname }
                    name := cm.genusname }
                  name := cm.speciesname
                  full_name := cm.calcfullname
                  subspecies := cm.subspecies
                  variety := cm.variety
                  subvariety := cm.subvariety
                  forma := cm.forma
                  subforma := cm.subforma
                  cultivar := cm.cultivar
                  vernacular_name := cm.vernacularname
                  habit := cm.habit
                  hardiness := hardiness
                  water_regime := cm.waterregime
                  exposure := cm.exposure
                  bloom_time := bloom_times
                  plant_size := cm.plantsize
                  flower_color := cm.colour
                  utah_native := boolFlag ["yes", "x", "utah native"] cm.utahnative
                  plant_select := boolFlag ["yes", "x"] cm.plantselect
                  deer_resist := boolFlag ["yes", "x"] cm.deer
                  rabbit_resist := boolFlag ["yes", "x"] cm.rabbit
                  bee_friend := boolFlag ["yes", "x"] cm.bee
                  high_elevation := boolFlag ["yes", "x"] cm.highelevation }
                garden := {
                  area := cm.gardenlocalityarea
                  name := cm.gardenlocalityname
                  code := cm.gardenlocalitycode }
                location := { latitude := lat, longitude := lon }
                plant_date := plant_date
                plant_id := cm.plantid
                commemoration_category := cm.commemorationcategory
                commemoration_person := cm.commemorationperson })

/-- Embedding of the loop of main.post_plant_collections over the data
rows (header already skipped).  Each iteration posts the payload
returned by the transformer UNCONDITIONALLY, even when it is None; the
result collects one posted value per row.  HTTP status handling only
logs and is not modelled; an exception escaping the transformer aborts
the loop, since main catches only HTTPError. -/
def post_plant_collections : List (List String) → Except PyExc (List (Option Payload))
  | [] => .ok []
  | r :: rest =>
    match brahms_row_to_payload r with
    | .error e => .error e
    | .ok payload =>
      match post_plant_collections rest with
      | .error e => .error e
      | .ok subs => .ok (payload :: subs)

/-- POSIX os.path.join of two components, as on the deployment hosts:
an absolute second component discards the first, otherwise a single
separator joins them. -/
def pathJoin (a b : String) : String :=
  if strStartsWith b "/" then b
  else if a = "" ∨ strEndsWith a "/" then a ++ b
  else a ++ "/" ++ b

/-- Left fold of os.path.join over several components. -/
def pathJoinList (parts : List String) : String :=
  match parts with
  | [] => ""
  | p :: rest => rest.foldl pathJoin p

/-- Embedding of parse.construct_img_filepath.  The platform test
sys.platform == darwin and the home directory are passed as
parameters.  A row whose field count is not 12 raises ValueError after
logging the offending row; otherwise the directory column row[2] and
the BOM-stripped filename column row[0] are joined, with the Windows
share prefix rewritten to the Box mount on darwin. -/
def construct_img_filepath (darwin : Bool) (home : String) (row : List String) :
    Except PyExc String :=
  if row.length ≠ 12 then .error .valueError
  else if darwin then
    let box_path := pathJoinList [home, "Library", "CloudStorage", "Box-Box",
      "RBG-Shared", "Photo Library - Plant Records", "AA BRAHMS Resized Photos", ""]
    .ok (pathJoin (pyReplace (row.getD 2 "") "B:\\" box_path)
      (pyReplace (row.getD 0 "") "\uFEFF" ""))
  else
    .ok (pathJoin (row.getD 2 "") (pyReplace (row.getD 0 "") "\uFEFF" ""))

/-- The species query payload built by parse.extract_species_info. -/
structure SpeciesQueryPayload where
  genus : String
  name : String
  subspecies : String
  variety : String
  subvariety : String
  forma : String
  subforma : String
  cultivar : String
  deriving DecidableEq, Repr

/-- Embedding of parse.extract_species_info: row[3] through row[10],
with the empty string substituted for falsy values; indexing past the
end of the row raises IndexError. -/
def extract_species_info (row : List String) : Except PyExc SpeciesQueryPayload :=
  if 11 ≤ row.length then
    .ok {
      genus := row.getD 3 ""
      name := if row.getD 4 "" ≠ "" then row.getD 4 "" else ""
      subspecies := if row.getD 5 "" ≠ "" then row.getD 5 "" else ""
      variety := if row.getD 6 "" ≠ "" then row.getD 6 "" else ""
      subvariety := if row.getD 7 "" ≠ "" then row.getD 7 "" else ""
      forma := if row.getD 8 "" ≠ "" then row.getD 8 "" else ""
      subforma := if row.getD 9 "" ≠ "" then row.getD 9 "" else ""
      cultivar := if row.getD 10 "" ≠ "" then row.getD 10 "" else "" }
  else .error .indexError

/-- Response of the find-species query, content count and the ids of
content results: the interface of the external service, abstracted as
a function of the query payload. -/
def SpeciesOracle : Type := SpeciesQueryPayload → Nat × List Nat

/-- One iteration of the loop of main.post_image_to_species: build the
file path (which may raise), build the query payload, query the
service; call the attach-image operation only when the result count is
exactly 1, using the id of the first result.  The returned list
records the attach-image calls (species id and file path) made for
this row. -/
def process_image_row (darwin : Bool) (home : String) (query : SpeciesOracle)
    (row : List String) : Except PyExc (List (Nat × String)) :=
  match construct_img_filepath darwin home row with
  | .error e => .error e
  | .ok img_filepath =>
    match extract_species_info row with
    | .error e => .error e
    | .ok species_image_payload =>
      let r := query species_image_payload
      if r.1 = 1 then
        match r.2 with
        | [] => .error .indexError
        | species_pk :: _ => .ok [(species_pk, img_filepath)]
      else .ok []

/-- Embedding of the loop of main.post_image_to_species over the data
rows (header already skipped): the attach-image calls of all rows in
order; an exception raised in the loop body is not caught and aborts
the remaining rows. -/
def post_image_to_species (darwin : Bool) (home : String) (query : SpeciesOracle) :
    List (List String) → Except PyExc (List (Nat × String))
  | [] => .ok []
  | row :: rest =>
    match process_image_row darwin home query row with
    | .error e => .error e
    | .ok calls =>
      match post_image_to_species darwin home query rest with
      | .error e => .error e
      | .ok more => .ok (calls ++ more)

/-- A well-formed 38-column plant row with the given hardiness, bloom
time, date and coordinate columns; every other column holds a benign
constant. -/
def mkPlantRow (hardiness bloom day month year lat lon : String) : List String :=
  ["Rosaceae", "Rose", "Rosa", "woodsii", "Rosa woodsii", "", "", "", "", "",
   "", "wild rose", "Shrub", hardiness, "Medium", "Sun", "1m", "Pink",
   "NAT", "Natural Area", "NA1", "2004-0127", lat, lon, "", "",
   day, month, year, "", "2021-06-01", bloom, "Yes", "", "x", "", "yes", ""]

/-- A well-formed 12-field image row. -/
def demoImgRow12 : List String :=
  ["rosa.jpg", "RBG", "B:\\photos", "Rosa", "woodsii", "", "", "", "", "", "",
   "2021-06-01"]

/-- An image row with only 11 fields, one short of the schema width. -/
def demoImgRow11 : List String :=
  ["rosa.jpg", "RBG", "B:\\photos", "Rosa", "woodsii", "", "", "", "", "", ""]

/-- A find-species service that returns two matches for every query. -/
def demoOracle2 : SpeciesOracle := fun _ => (2, [7, 9])

/-- A find-species service that returns a unique match for every query. -/
def demoOracle1 : SpeciesOracle := fun _ => (1, [5])

/-- A fully populated well-formed plant row. -/
def demoC10Row : List String :=
  mkPlantRow "4,5" "Early April" "15" "6" "2021" "40.76" "-111.8"

/-- The payload that the transformer builds from demoC10Row. -/
def demoC10Payload : Payload :=
  { species := {
      genus := { family := { name := "Rosaceae", vernacular_name := "Rose" },
                 name := "Rosa" }
      name := "woodsii"
      full_name := "Rosa woodsii"
      subspecies := ""
      variety := ""
      subvariety := ""
      forma := ""
      subforma := ""
      cultivar := ""
      vernacular_name := "wild rose"
      habit := "Shrub"
      hardiness := [4, 5]
      water_regime := "Medium"
      exposure := "Sun"
      bloom_time := ["Early April"]
      plant_size := "1m"
      flower_color := "Pink"
      utah_native := true
      plant_select := false
      deer_resist := true
      rabbit_resist := false
      bee_friend := true
      high_elevation := false }
    garden := { area := "NAT", name := "Natural Area", code := "NA1" }
    location := { latitude := some "40.76", longitude := some "-111.8" }
    plant_date := some "2021-6-15"
    plant_id := "2004-0127"
    commemoration_category := ""
    commemoration_person := "" }

/-- Whether a computation finished without raising. -/
def exceptOk {α : Type} : Except PyExc α → Bool
  | .ok _ => true
  | .error _ => false

/-- The payload that the transformer builds from the plant row whose
hardiness, bloom, date and coordinate columns are all empty. -/
def demoC8Payload : Payload :=
  { demoC10Payload with
    species := { demoC10Payload.species with hardiness := [], bloom_time := [] }
    location := { latitude := none, longitude := none }
    plant_date := none }

/-- The hardiness loop returns exactly the parsed integers in order when
every token parses to an integer. -/
theorem hardinessLoop_ok (l : List String) (ns : List Int)
    (h : l.map (fun t => pyInt (pyStrip t)) = ns.map some) :
    hardinessLoop l = .ok ns := by
  induction l generalizing ns with
  | nil =>
    cases ns with
    | nil => rfl
    | cons n tl => simp at h
  | cons e rest ih =>
    cases ns with
    | nil => simp at h
    | cons n tl =>
      simp only [List.map_cons, List.cons.injEq] at h
      simp [hardinessLoop, h.1, ih tl h.2]

/-- The hardiness loop raises ValueError as soon as some token does not
parse to an integer. -/
theorem hardinessLoop_err (l : List String)
    (h : none ∈ l.map (fun t => pyInt (pyStrip t))) :
    hardinessLoop l = .error .valueError := by
  induction l with
  | nil => simp at h
  | cons e rest ih =>
    cases he : pyInt (pyStrip e) with
    | none => simp [hardinessLoop, he]
    | some n =>
      simp only [List.map_cons, List.mem_cons, he] at h
      rcases h with h | h
      · cases h
      · simp [hardinessLoop, he, ih h]

/-- Claim C5: for every comma-separated string whose whitespace-trimmed
tokens all parse as integers, process_hardiness returns exactly those
integers in the original order; as soon as some trimmed token does not
parse as an integer, it raises ValueError instead of silently
defaulting. -/
theorem c5_hardiness_parses_in_order_or_raises (s : String) :
    (∀ ns : List Int,
        (pySplit ',' s).map (fun t => pyInt (pyStrip t)) = ns.map some →
        process_hardiness s = .ok ns) ∧
    (none ∈ (pySplit ',' s).map (fun t => pyInt (pyStrip t)) →
        process_hardiness s = .error .valueError) :=
  ⟨fun ns h => hardinessLoop_ok _ ns h, fun h => hardinessLoop_err _ h⟩

/-- Witness for C5: the concrete string with trimmed integer tokens
gives the ordered integer list and a non-numeric token raises. -/
theorem c5_hardiness_parses_in_order_or_raises_w :
    process_hardiness "1, 2,3" = .ok [1, 2, 3] ∧
    process_hardiness "1,x" = .error .valueError :=
  ⟨(c5_hardiness_parses_in_order_or_raises "1, 2,3").1 [1, 2, 3] (by decide),
   (c5_hardiness_parses_in_order_or_raises "1,x").2 (by decide)⟩

/-- Claim C6: the plant-date coercer composes the valid date 2021-6-15,
returns absent for the out-of-range day 32, and raises ValueError for
the non-numeric day ab; the transformer catches that ValueError and
drops the row, returning None. -/
theorem c6_plant_date_cases :
    process_plant_date "15" "6" "2021" = .ok (some "2021-6-15") ∧
    process_plant_date "32" "6" "2021" = .ok none ∧
    process_plant_date "ab" "6" "2021" = .error .valueError ∧
    brahms_row_to_payload (mkPlantRow "" "" "ab" "6" "2021" "" "") = .ok none :=
  ⟨rfl, rfl, rfl, rfl⟩

/-- Claim C7: the bloom-months coercer splits on spaces, title-cases
the tokens, merges Early, Mid and Late with the following token into a
compound label, and preserves the original order. -/
theorem c7_bloom_time_merges :
    process_bloom_time "Early April Late May" = .ok ["Early April", "Late May"] ∧
    process_bloom_time "early april late may" = .ok ["Early April", "Late May"] ∧
    process_bloom_time "Mid June July" = .ok ["Mid June", "July"] :=
  ⟨rfl, rfl, rfl⟩

/-- Claim C8 counterexample: on the empty input string the coercer
itself raises ValueError, because the split yields a single empty token
and the integer parse of an empty token fails; it does not return the
empty list. -/
theorem c8_empty_hardiness_cex :
    process_hardiness "" = .error .valueError := rfl

/-- Claim C8 amended: the emitted record has hardiness equal to the
empty list when the raw hardiness column is empty, because the
transformer invokes the coercer only on a truthy value; the coercer
itself raises on the empty string. -/
theorem c8_empty_hardiness_amended (row : List String) (cm : ColumnMapping)
    (p : Payload)
    (hcm : get_column_mapping (clean_row row) = .ok cm)
    (hemp : cm.hardiness = "")
    (hok : brahms_row_to_payload row = .ok (some p)) :
    p.species.hardiness = [] := by
  have hh : step_hardiness cm = .ok (some []) := by
    simp [step_hardiness, hemp]
  simp only [brahms_row_to_payload, hcm, hh] at hok
  cases hb : step_bloom cm with
  | error e => simp [hb] at hok
  | ok ob =>
    cases ob with
    | none => simp [hb] at hok
    | some b =>
      simp only [hb] at hok
      cases hd : step_date cm with
      | error e => simp [hd] at hok
      | ok od =>
        cases od with
        | none => simp [hd] at hok
        | some d =>
          simp only [hd] at hok
          cases hla : parse_coord cm.latitude with
          | error e => simp [hla] at hok
          | ok la =>
            simp only [hla] at hok
            cases hlo : parse_coord cm.longitude with
            | error e => simp [hlo] at hok
            | ok lo =>
              simp only [hlo, Except.ok.injEq, Option.some.injEq] at hok
              subst hok
              rfl

/-- Witness for C8 amended at a concrete row with an empty hardiness
column. -/
theorem c8_empty_hardiness_amended_w :
    demoC8Payload.species.hardiness = [] :=
  c8_empty_hardiness_amended (mkPlantRow "" "" "" "" "" "" "") _ demoC8Payload
    rfl rfl rfl

/-- Claim C9 counterexample: a nonempty bloom string whose final token
title-cases to a marker need not raise; in Early Early the trailing
marker is consumed as the follower of the first one and the call
returns normally. -/
theorem c9_final_marker_cex :
    process_bloom_time "Early Early" = .ok ["Early Early"] := rfl

/-- Claim C9 amended: when the shared-iterator scan reaches a marker
token with no following token, as in Early or April Early,
process_bloom_time raises StopIteration, and since the transformer
catches only KeyError the exception escapes brahms_row_to_payload;
however a final marker that is consumed as a follower, as in
Early Early, does not raise. -/
theorem c9_trailing_marker_raises :
    process_bloom_time "Early" = .error .stopIteration ∧
    process_bloom_time "April Early" = .error .stopIteration ∧
    process_bloom_time "Early Early" = .ok ["Early Early"] ∧
    brahms_row_to_payload (mkPlantRow "" "Early" "" "" "" "" "") =
      .error .stopIteration :=
  ⟨rfl, rfl, rfl, rfl⟩

/-- Claim C10: the transformer is pure and deterministic: on the same
well-formed 38-column row it returns identical results, and two driver
iterations over the same row value submit the identical record twice. -/
theorem c10_transformer_deterministic (row : List String) (p : Option Payload)
    (_h38 : row.length = 38)
    (hp : brahms_row_to_payload row = .ok p) :
    brahms_row_to_payload row = brahms_row_to_payload row ∧
    post_plant_collections [row, row] = .ok [p, p] :=
  ⟨rfl, by simp [post_plant_collections, hp]⟩

/-- Witness for C10 at a concrete fully populated 38-column row. -/
theorem c10_transformer_deterministic_w :
    brahms_row_to_payload demoC10Row = brahms_row_to_payload demoC10Row ∧
    post_plant_collections [demoC10Row, demoC10Row] =
      .ok [some demoC10Payload, some demoC10Payload] :=
  c10_transformer_deterministic demoC10Row (some demoC10Payload) (by decide) rfl

/-- Claim C1 evaluated on the failing input: for a file of three data
rows of which the second has the non-numeric hardiness value 4b, the
driver makes THREE create-collection calls, the second one posting the
absent payload None, because the loop posts the transformer result
unconditionally; the claim describes two calls with none for row 2. -/
theorem c1_driver_posts_none_for_dropped_row :
    ∃ p1 p3 : Payload,
      post_plant_collections
        [mkPlantRow "4" "" "" "" "" "" "",
         mkPlantRow "4b" "" "" "" "" "" "",
         mkPlantRow "5" "" "" "" "" "" ""] =
      .ok [some p1, none, some p3] :=
  ⟨_, _, rfl⟩

/-- Claim C2 counterexample: a well-formed 38-column row whose latitude
column holds the nonempty unparseable value abc makes the transformer
raise ValueError, which escapes it, contradicting the claimed
containment of row-level errors. -/
theorem c2_coord_error_escapes_cex :
    brahms_row_to_payload (mkPlantRow "" "" "" "" "" "abc" "") =
      .error .valueError := rfl

/-- Claim C2 amended: when the latitude column, or the longitude column
while the latitude parses without raising, is nonempty and not
parseable as a floating value, and every earlier step of the
transformer succeeds, brahms_row_to_payload raises ValueError; the
exception is not caught anywhere on the plant-collection path, so the
driver aborts the remaining rows of the batch. -/
theorem c2_coord_parse_error_aborts_batch (row : List String)
    (cm : ColumnMapping) (hs : List Int) (b : List String) (d : Option String)
    (hcm : get_column_mapping (clean_row row) = .ok cm)
    (hh : step_hardiness cm = .ok (some hs))
    (hb : step_bloom cm = .ok (some b))
    (hd : step_date cm = .ok (some d))
    (hbad : (0 < cm.latitude.length ∧ pyFloatValid cm.latitude = false) ∨
      (exceptOk (parse_coord cm.latitude) = true ∧
        0 < cm.longitude.length ∧ pyFloatValid cm.longitude = false)) :
    brahms_row_to_payload row = .error .valueError ∧
    ∀ rest, post_plant_collections (row :: rest) = .error .valueError := by
  have hmain : brahms_row_to_payload row = .error .valueError := by
    rcases hbad with ⟨hlat, hbadlat⟩ | ⟨hokla, hlon, hbadlon⟩
    · have hla : parse_coord cm.latitude = .error .valueError := by
        simp [parse_coord, hlat, hbadlat]
      simp [brahms_row_to_payload, hcm, hh, hb, hd, hla]
    · cases hla : parse_coord cm.latitude with
      | error e => rw [hla] at hokla; simp [exceptOk] at hokla
      | ok la =>
        have hlo : parse_coord cm.longitude = .error .valueError := by
          simp [parse_coord, hlon, hbadlon]
        simp [brahms_row_to_payload, hcm, hh, hb, hd, hla, hlo]
  exact ⟨hmain, fun rest => by simp [post_plant_collections, hmain]⟩

/-- Witness for C2 amended at a concrete row with latitude abc, and at
a concrete row whose latitude parses while its longitude is abc. -/
theorem c2_coord_parse_error_aborts_batch_w :
    brahms_row_to_payload (mkPlantRow "" "" "" "" "" "abc" "") =
      .error .valueError ∧
    brahms_row_to_payload (mkPlantRow "" "" "" "" "" "40.76" "abc") =
      .error .valueError ∧
    post_plant_collections [mkPlantRow "" "" "" "" "" "40.76" "abc"] =
      .error .valueError :=
  ⟨(c2_coord_parse_error_aborts_batch (mkPlantRow "" "" "" "" "" "abc" "")
      _ _ _ _ rfl rfl rfl rfl (Or.inl (by decide))).1,
   (c2_coord_parse_error_aborts_batch (mkPlantRow "" "" "" "" "" "40.76" "abc")
      _ _ _ _ rfl rfl rfl rfl (Or.inr ⟨by decide, by decide, by decide⟩)).1,
   (c2_coord_parse_error_aborts_batch (mkPlantRow "" "" "" "" "" "40.76" "abc")
      _ _ _ _ rfl rfl rfl rfl (Or.inr ⟨by decide, by decide, by decide⟩)).2 []⟩

/-- Claim C3: the image file-path construction never raises on a row
with exactly 12 fields, raises ValueError on any other field count, and
that exception is not caught by the image sync driver, so a wrong
column count is fatal to the processing of the file. -/
theorem c3_img_row_schema_width (darwin : Bool) (home : String)
    (row : List String) (query : SpeciesOracle) (rest : List (List String)) :
    (row.length = 12 →
        exceptOk (construct_img_filepath darwin home row) = true) ∧
    (row.length ≠ 12 →
        construct_img_filepath darwin home row = .error .valueError ∧
        post_image_to_species darwin home query (row :: rest) =
          .error .valueError) := by
  constructor
  · intro h
    cases darwin <;> simp [construct_img_filepath, h, exceptOk]
  · intro h
    have hc : construct_img_filepath darwin home row = .error .valueError := by
      simp [construct_img_filepath, h]
    refine ⟨hc, ?_⟩
    simp [post_image_to_species, process_image_row, hc]

/-- Witness for C3: a 12-field row builds a path, an 11-field row
raises, and the raise aborts the image driver. -/
theorem c3_img_row_schema_width_w :
    exceptOk (construct_img_filepath false "" demoImgRow12) = true ∧
    construct_img_filepath false "" demoImgRow11 = .error .valueError ∧
    post_image_to_species false "" demoOracle1 [demoImgRow11] =
      .error .valueError :=
  ⟨(c3_img_row_schema_width false "" demoImgRow12 demoOracle1 []).1 (by decide),
   ((c3_img_row_schema_width false "" demoImgRow11 demoOracle1 []).2
      (by decide)).1,
   ((c3_img_row_schema_width false "" demoImgRow11 demoOracle1 []).2
      (by decide)).2⟩

/-- Claim C4: for an image row the attach-image operation runs exactly
when the find-species query reports count 1; on any other count the row
makes zero attach calls and the driver continues with the next row
unchanged. -/
theorem c4_attach_only_on_unique_match (darwin : Bool) (home : String)
    (query : SpeciesOracle) (row : List String) (fp : String)
    (spay : SpeciesQueryPayload) (rest : List (List String))
    (hfp : construct_img_filepath darwin home row = .ok fp)
    (hsp : extract_species_info row = .ok spay) :
    ((query spay).1 ≠ 1 →
        process_image_row darwin home query row = .ok [] ∧
        post_image_to_species darwin home query (row :: rest) =
          post_image_to_species darwin home query rest) ∧
    (∀ pk ids, query spay = (1, pk :: ids) →
        process_image_row darwin home query row = .ok [(pk, fp)]) := by
  constructor
  · intro hne
    have hpr : process_image_row darwin home query row = .ok [] := by
      simp [process_image_row, hfp, hsp, hne]
    refine ⟨hpr, ?_⟩
    simp only [post_image_to_species, hpr]
    cases hrest : post_image_to_species darwin home query rest with
    | error e => simp
    | ok more => simp
  · intro pk ids hq
    simp [process_image_row, hfp, hsp, hq]

/-- Witness for C4: under a service returning two matches, a well-formed
row makes zero attach calls and the driver state is as if the row were
absent. -/
theorem c4_attach_only_on_unique_match_w :
    process_image_row false "" demoOracle2 demoImgRow12 = .ok [] ∧
    post_image_to_species false "" demoOracle2 [demoImgRow12] =
      post_image_to_species false "" demoOracle2 [] :=
  (c4_attach_only_on_unique_match false "" demoOracle2 demoImgRow12
      "B:\\photos/rosa.jpg"
      ⟨"Rosa", "woodsii", "", "", "", "", "", ""⟩ [] rfl rfl).1 (by decide)

end Brahms
